import Mathlib

/-!
Verification of the sprite-bootstrap SSH proxy server core
(src/internal/sshserver/server.go and the host-key module).

The Go source is shallowly embedded: each Go function that a claim
depends on becomes a Lean definition operating on explicit state, with
machine integers represented as Nat (uint32 fields; uint16 casts are
modelled as reduction mod 65536).  Effects on the SSH channel, the
WebSocket and the filesystem are modelled as explicit event values or
traces returned by the functions.
-/

namespace SpriteBootstrap

set_option maxRecDepth 8000

/-! ## Session data model (server.go, type session and request payloads) -/

/-- Payload of an SSH env request (server.go, type envRequest). -/
structure envRequest where
  Name : String
  Value : String
deriving DecidableEq

/-- Payload of an SSH exec request (server.go, type execRequest).  An exec
request with an empty SSH payload leaves Command at its zero value "". -/
structure execRequest where
  Command : String
deriving DecidableEq

/-- Payload of an SSH pty-req request (server.go, type ptyRequest); the SSH
wire order is cols before rows. -/
structure ptyRequest where
  Term : String
  Cols : Nat
  Rows : Nat
  Width : Nat
  Height : Nat
  Modes : String
deriving DecidableEq

/-- Payload of an SSH window-change request (server.go, type
windowChangeRequest); wire order cols before rows. -/
structure windowChangeRequest where
  Cols : Nat
  Rows : Nat
  Width : Nat
  Height : Nat
deriving DecidableEq

/-- Per-channel session state (server.go, type session): accumulated env,
tty flag, running flag and the most recent window dimensions. -/
structure session where
  env : List String
  tty : Bool
  running : Bool
  win : windowChangeRequest
deriving DecidableEq

/-- The env a fresh session is seeded with (server.go, handleSession). -/
def defaultSessionEnv : List String :=
  ["SHELL=/bin/bash", "LANG=en_US.UTF-8", "LC_ALL=en_US.UTF-8"]

/-- Errors returned by session.handleReq (server.go, package-level vars). -/
inductive ReqError where
  | alreadyRunning
  | duplicatePTY
  | unsupportedReq
  | unknownReq
deriving DecidableEq

/-- The retry-loop parameters that session.exec hands to the goroutine it
spawns (server.go, session.exec): the command, whether it is a shell, and
the effective retry ceiling after the interactive-shell promotion. -/
structure ExecPlan where
  command : String
  isShell : Bool
  maxRetries : Nat
deriving DecidableEq

/-- A parsed session request, already unmarshalled from its SSH payload
(server.go, session.handleReq switch on req.Type). -/
inductive SessionReq where
  | env (er : envRequest)
  | shell
  | exec (er : execRequest)
  | ptyReq (pr : ptyRequest)
  | windowChange (wr : windowChangeRequest)
  | unsupported
  | unknown
deriving DecidableEq

/-- Embeds session.exec (server.go).  The CompareAndSwap on running
rejects a second start; for shells the retry ceiling is promoted to at
least 10.  The returned ExecPlan captures what the spawned retry goroutine
is given. -/
def session.exec (s : session) (command : String) (isShell : Bool) (maxRetries : Nat) :
    session × Except ReqError (Option ExecPlan) :=
  if s.running then (s, .error .alreadyRunning)
  else ({ s with running := true },
        .ok (some { command := command, isShell := isShell,
                    maxRetries := if isShell then max maxRetries 10 else maxRetries }))

/-- Embeds session.handleReq (server.go): the per-request state transition
of a session channel.  The returned Except drives the reply sent by
handleSession (success iff no error). -/
def session.handleReq (s : session) (req : SessionReq) (maxSpriteRetries : Nat) :
    session × Except ReqError (Option ExecPlan) :=
  match req with
  | .env er =>
      if s.running then (s, .error .alreadyRunning)
      else ({ s with env := s.env ++ [er.Name ++ "=" ++ er.Value] }, .ok none)
  | .shell => s.exec "" true maxSpriteRetries
  | .exec er => s.exec er.Command (er.Command == "") maxSpriteRetries
  | .ptyReq pr =>
      if s.running then (s, .error .alreadyRunning)
      else if s.tty then (s, .error .duplicatePTY)
      else ({ s with
                env := s.env ++ ["TERM=" ++ pr.Term, "COLORTERM=truecolor"],
                tty := true,
                win := { Cols := pr.Cols, Rows := pr.Rows,
                         Width := pr.Width, Height := pr.Height } },
            .ok none)
  | .windowChange wr => ({ s with win := wr }, .ok none)
  | .unsupported => (s, .error .unsupportedReq)
  | .unknown => (s, .error .unknownReq)

/-- The boolean reply handleSession sends for a request that wants one
(server.go, handleSession: req.Reply with err equal nil). -/
def replyOf (r : Except ReqError (Option ExecPlan)) : Bool :=
  match r with
  | .ok _ => true
  | .error _ => false

/-! ## Running the remote command (server.go, session.runCommand) -/

/-- A call made on the remote command before it is started (sprites SDK
surface used by runCommand). -/
inductive TTYCall where
  | setTTY (b : Bool)
  | setTTYSize (rows cols : Nat)
deriving DecidableEq

/-- The remote command as configured by runCommand before Start: argv,
propagated env, and the TTY calls issued (in order) before Start. -/
structure RemoteCmd where
  argv : List String
  env : List String
  ttyCalls : List TTYCall
deriving DecidableEq

/-- Outcome of cmd.Wait as seen by runCommand: clean success, an
ExitError carrying a code, cancellation of the context (Wait returns the
context error, which is not an ExitError), any other non-exit error, or a
failure of Start itself. -/
inductive WaitResult where
  | success
  | exitError (code : Nat)
  | cancelled
  | otherError
  | startError
deriving DecidableEq

/-- Big-endian 4-byte encoding of a uint32 value, as produced by
binary.BigEndian.PutUint32 (server.go, runCommand). -/
def bigEndian4 (v : Nat) : List Nat :=
  [v / 16777216 % 256, v / 65536 % 256, v / 256 % 256, v % 256]

/-- Embeds session.runCommand (server.go).  First component: the remote
command it configures — argv chosen by (isShell, tty), env propagated,
and for tty sessions SetTTY(true) then SetTTYSize(rows, cols) issued
before Start (the uint16 casts truncate mod 65536).  Second component:
the exit-status request sent on the channel, as (wantReply, payload);
none when Start fails, when Wait returns a non-exit error, or when the
context was cancelled. -/
def session.runCommand (s : session) (command : String) (isShell : Bool) (w : WaitResult) :
    RemoteCmd × Option (Bool × List Nat) :=
  ({ argv :=
       if isShell && s.tty then ["/bin/bash", "-li"]
       else if isShell then ["/bin/bash", "-l"]
       else ["/bin/bash", "-c", command],
     env := s.env,
     ttyCalls :=
       if s.tty then
         [.setTTY true, .setTTYSize (s.win.Rows % 65536) (s.win.Cols % 65536)]
       else [] },
   match w with
   | .success => some (false, bigEndian4 0)
   | .exitError k => some (false, bigEndian4 (k % 4294967296))
   | .cancelled => none
   | .otherError => none
   | .startError => none)

/-- Embeds one wake of session.listenForWindowChange (server.go): the
SetTTYSize call it resends, built from the current window state with the
rows argument first. -/
def session.listenForWindowChange (s : session) : TTYCall :=
  .setTTYSize (s.win.Rows % 65536) (s.win.Cols % 65536)

/-! ## Claims about the session state machine -/

/-- Claim C3: for every pair (is_shell, has_tty) and command, the argv
passed to the remote process matches the spec table exactly — is_shell
with tty runs /bin/bash -li, is_shell without tty runs /bin/bash -l,
and not is_shell runs /bin/bash -c with the command regardless of tty;
the accumulated env list is propagated to the process. -/
theorem argv_table_matches (s : session) (command : String) (isShell : Bool) (w : WaitResult) :
    (s.tty = true → (s.runCommand command true w).1.argv = ["/bin/bash", "-li"])
    ∧ (s.tty = false → (s.runCommand command true w).1.argv = ["/bin/bash", "-l"])
    ∧ (s.runCommand command false w).1.argv = ["/bin/bash", "-c", command]
    ∧ (s.runCommand command isShell w).1.env = s.env := by
  refine ⟨fun h => ?_, fun h => ?_, ?_, ?_⟩ <;> simp [session.runCommand, *]

/-- Witness for C3 at concrete inputs: a tty shell session gets
/bin/bash -li and its env propagated unchanged. -/
theorem argv_table_matches_witness :
    (session.runCommand ⟨defaultSessionEnv, true, true, ⟨80, 24, 0, 0⟩⟩ "" true .success).1.argv
      = ["/bin/bash", "-li"]
    ∧ (session.runCommand ⟨defaultSessionEnv, true, true, ⟨80, 24, 0, 0⟩⟩ "" true .success).1.env
      = defaultSessionEnv := by
  have h := argv_table_matches ⟨defaultSessionEnv, true, true, ⟨80, 24, 0, 0⟩⟩ "" true .success
  exact ⟨h.1 rfl, h.2.2.2⟩

/-- Claim C6: a second pty-req after one pty is already attached replies
false, and an env or pty-req request arriving once the session is
running replies false; in every such case the session state (env, tty
flag, window dimensions) is unchanged by the rejected request. -/
theorem session_request_rejections (s : session) (pr : ptyRequest) (er : envRequest) (m : Nat) :
    (s.tty = true →
      (s.handleReq (.ptyReq pr) m).1 = s ∧ replyOf (s.handleReq (.ptyReq pr) m).2 = false)
    ∧ (s.running = true →
      ((s.handleReq (.env er) m).1 = s ∧ replyOf (s.handleReq (.env er) m).2 = false)
      ∧ ((s.handleReq (.ptyReq pr) m).1 = s ∧ replyOf (s.handleReq (.ptyReq pr) m).2 = false)) := by
  constructor
  · intro h
    cases hr : s.running <;> simp [session.handleReq, hr, h, replyOf]
  · intro hr
    simp [session.handleReq, hr, replyOf]

/-- Witness for C6: on a session that is running with a pty attached,
both a second pty-req and an env request leave the state unchanged and
reply false. -/
theorem session_request_rejections_witness :
    ((session.handleReq ⟨defaultSessionEnv, true, true, ⟨80, 24, 0, 0⟩⟩
        (.ptyReq ⟨"xterm", 80, 24, 0, 0, ""⟩) 5).1
      = ⟨defaultSessionEnv, true, true, ⟨80, 24, 0, 0⟩⟩
      ∧ replyOf (session.handleReq ⟨defaultSessionEnv, true, true, ⟨80, 24, 0, 0⟩⟩
        (.ptyReq ⟨"xterm", 80, 24, 0, 0, ""⟩) 5).2 = false)
    ∧ ((session.handleReq ⟨defaultSessionEnv, true, true, ⟨80, 24, 0, 0⟩⟩
        (.env ⟨"FOO", "bar"⟩) 5).1
      = ⟨defaultSessionEnv, true, true, ⟨80, 24, 0, 0⟩⟩
      ∧ replyOf (session.handleReq ⟨defaultSessionEnv, true, true, ⟨80, 24, 0, 0⟩⟩
        (.env ⟨"FOO", "bar"⟩) 5).2 = false) := by
  have h := session_request_rejections ⟨defaultSessionEnv, true, true, ⟨80, 24, 0, 0⟩⟩
    ⟨"xterm", 80, 24, 0, 0, ""⟩ ⟨"FOO", "bar"⟩ 5
  exact ⟨h.1 rfl, (h.2 rfl).1⟩

/-- Claim C10: an exec request whose Command payload is the empty string
is handled exactly as a shell request — same state transition and the
same ExecPlan, with isShell true and the retry ceiling promoted to at
least 10 — not as /bin/bash -c with an empty command. -/
theorem empty_exec_equals_shell (s : session) (m : Nat) :
    s.handleReq (.exec ⟨""⟩) m = s.handleReq .shell m
    ∧ (s.running = false →
        (s.handleReq (.exec ⟨""⟩) m).2 = .ok (some ⟨"", true, max m 10⟩)) := by
  constructor
  · rfl
  · intro h
    simp [session.handleReq, session.exec, h]

/-- Witness for C10: on a fresh session, exec with empty command yields
the shell plan with retry ceiling 10. -/
theorem empty_exec_equals_shell_witness :
    session.handleReq ⟨defaultSessionEnv, false, false, ⟨0, 0, 0, 0⟩⟩ (.exec ⟨""⟩) 5
      = session.handleReq ⟨defaultSessionEnv, false, false, ⟨0, 0, 0, 0⟩⟩ .shell 5
    ∧ (session.handleReq ⟨defaultSessionEnv, false, false, ⟨0, 0, 0, 0⟩⟩ (.exec ⟨""⟩) 5).2
      = .ok (some ⟨"", true, 10⟩) := by
  have h := empty_exec_equals_shell ⟨defaultSessionEnv, false, false, ⟨0, 0, 0, 0⟩⟩ 5
  exact ⟨h.1, h.2 rfl⟩

/-- Claim C1: for a session configured by pty-req, SetTTYSize is issued
with arguments ordered rows-then-cols — runCommand issues
SetTTY(true) then SetTTYSize(rows, cols) with the pty-req dimensions
before Start, and after a window-change the sync task resends
SetTTYSize(rows, cols) with the most recent dimensions, never
SetTTYSize(cols, rows). -/
theorem tty_size_rows_then_cols (s0 : session) (pr : ptyRequest) (wr : windowChangeRequest)
    (m : Nat) (command : String) (isShell : Bool) (w : WaitResult)
    (h1 : s0.running = false) (h2 : s0.tty = false)
    (hpr : pr.Rows < 65536) (hpc : pr.Cols < 65536)
    (hwr : wr.Rows < 65536) (hwc : wr.Cols < 65536) :
    (((s0.handleReq (.ptyReq pr) m).1.runCommand command isShell w).1.ttyCalls
        = [TTYCall.setTTY true, TTYCall.setTTYSize pr.Rows pr.Cols])
    ∧ ((s0.handleReq (.ptyReq pr) m).1.handleReq (.windowChange wr) m).1.listenForWindowChange
        = TTYCall.setTTYSize wr.Rows wr.Cols
    ∧ (wr.Rows ≠ wr.Cols →
        ((s0.handleReq (.ptyReq pr) m).1.handleReq (.windowChange wr) m).1.listenForWindowChange
          ≠ TTYCall.setTTYSize wr.Cols wr.Rows) := by
  refine ⟨?_, ?_, ?_⟩
  · simp [session.handleReq, session.runCommand, h1, h2,
      Nat.mod_eq_of_lt hpr, Nat.mod_eq_of_lt hpc]
  · simp [session.handleReq, session.listenForWindowChange, h1, h2,
      Nat.mod_eq_of_lt hwr, Nat.mod_eq_of_lt hwc]
  · intro hne
    simp [session.handleReq, session.listenForWindowChange, h1, h2,
      Nat.mod_eq_of_lt hwr, Nat.mod_eq_of_lt hwc]
    intro hcon
    exact absurd hcon hne

/-- Witness for C1, the resize scenario: pty-req with cols=80, rows=24
then window-change to cols=120, rows=40 makes the sync task resend
SetTTYSize(40, 120) and not SetTTYSize(120, 40). -/
theorem tty_size_rows_then_cols_witness :
    (((session.handleReq ⟨defaultSessionEnv, false, false, ⟨0, 0, 0, 0⟩⟩
          (.ptyReq ⟨"xterm", 80, 24, 0, 0, ""⟩) 5).1.runCommand "" true .success).1.ttyCalls
        = [TTYCall.setTTY true, TTYCall.setTTYSize 24 80])
    ∧ ((session.handleReq ⟨defaultSessionEnv, false, false, ⟨0, 0, 0, 0⟩⟩
          (.ptyReq ⟨"xterm", 80, 24, 0, 0, ""⟩) 5).1.handleReq
          (.windowChange ⟨120, 40, 0, 0⟩) 5).1.listenForWindowChange
        = TTYCall.setTTYSize 40 120
    ∧ (40 ≠ 120 →
        ((session.handleReq ⟨defaultSessionEnv, false, false, ⟨0, 0, 0, 0⟩⟩
          (.ptyReq ⟨"xterm", 80, 24, 0, 0, ""⟩) 5).1.handleReq
          (.windowChange ⟨120, 40, 0, 0⟩) 5).1.listenForWindowChange
          ≠ TTYCall.setTTYSize 120 40) :=
  tty_size_rows_then_cols ⟨defaultSessionEnv, false, false, ⟨0, 0, 0, 0⟩⟩
    ⟨"xterm", 80, 24, 0, 0, ""⟩ ⟨120, 40, 0, 0⟩ 5 "" true .success
    rfl rfl (by decide) (by decide) (by decide) (by decide)

/-- Claim C5: when Wait returns cleanly, exactly one exit-status request
with want-reply false carrying the 4-byte big-endian exit code (zero on
success) is emitted; on cancellation, a non-exit Wait error, or a Start
failure no exit-status is emitted. -/
theorem exit_status_emission (s : session) (command : String) (isShell : Bool) (k : Nat) :
    (s.runCommand command isShell .success).2 = some (false, bigEndian4 0)
    ∧ (s.runCommand command isShell (.exitError k)).2
        = some (false, bigEndian4 (k % 4294967296))
    ∧ (s.runCommand command isShell .cancelled).2 = none
    ∧ (s.runCommand command isShell .otherError).2 = none
    ∧ (s.runCommand command isShell .startError).2 = none := by
  exact ⟨rfl, rfl, rfl, rfl, rfl⟩

/-- Witness for C5, the exit-code scenario: an ExitError with code 7
produces the payload 0x00000007. -/
theorem exit_status_emission_witness :
    (session.runCommand ⟨defaultSessionEnv, false, true, ⟨0, 0, 0, 0⟩⟩ "exit 7" false
        (.exitError 7)).2 = some (false, [0, 0, 0, 7])
    ∧ (session.runCommand ⟨defaultSessionEnv, false, true, ⟨0, 0, 0, 0⟩⟩ "exit 7" false
        .cancelled).2 = none := by
  have h := exit_status_emission ⟨defaultSessionEnv, false, true, ⟨0, 0, 0, 0⟩⟩ "exit 7" false 7
  exact ⟨h.2.1, h.2.2.1⟩

/-! ## Retry classification and backoff (server.go, shouldRetry and session.exec) -/

/-- Abstraction of a Go error as seen by shouldRetry: whether it is a
net.Error whose Timeout() reports true, and its Error() text. -/
structure ErrInfo where
  isTimeout : Bool
  msg : String
deriving DecidableEq

/-- The transient substrings of shouldRetry (server.go, transientMessages). -/
def transientMessages : List String :=
  ["connection refused",
   "connection reset",
   "connection reset by peer",
   "no such host",
   "i/o timeout",
   "broken pipe",
   "websocket: close"]

/-- Substring test on character lists, the semantics of Go
strings.Contains: the needle occurs as a contiguous run of the haystack
(the empty needle always occurs). -/
def containsSub : List Char → List Char → Bool
  | [], needle => needle.isEmpty
  | c :: t, needle => needle.isPrefixOf (c :: t) || containsSub t needle

/-- Embeds shouldRetry (server.go): transient iff the error is a network
timeout or its lowercased text contains one of the transient substrings. -/
def shouldRetry (e : ErrInfo) : Bool :=
  e.isTimeout
    || transientMessages.any fun msg =>
        containsSub (e.msg.toList.map Char.toLower) msg.toList

/-- The backoff cap, 10 seconds, as a Go time.Duration count of
nanoseconds (server.go line 40, maxBackoffDuration). -/
def maxBackoffDuration : Nat := 10000000000

/-- Embeds the delay bound computed in the retry loop of session.exec
(server.go line 714): min(1 shifted left by min(attempt, 63),
int64(maxBackoffDuration)).  The sleep is
time.Duration(mrand.Int63n(delay)), i.e. a uniform number of
nanoseconds in [0, backoffDelay attempt). -/
def backoffDelay (attempt : Nat) : Nat :=
  min (2 ^ min attempt 63) maxBackoffDuration

/-- Modelled from the spec: the backoff bound the spec prescribes before
retry n, namely min(2^n seconds, 10 s), expressed in nanoseconds so it
is comparable with backoffDelay. -/
def specBackoffDelay (n : Nat) : Nat :=
  min (2 ^ n * 1000000000) maxBackoffDuration

/-- Claim C4: shouldRetry classifies an error as transient if and only
if it is a network timeout or its lowercased text contains one of the
seven transient substrings; in particular context cancellation,
authentication failures and malformed requests are classified fatal. -/
theorem shouldRetry_transient_iff (e : ErrInfo) :
    (shouldRetry e = true ↔
      e.isTimeout = true
      ∨ ∃ msg ∈ transientMessages,
          containsSub (e.msg.toList.map Char.toLower) msg.toList = true)
    ∧ shouldRetry ⟨false, "context canceled"⟩ = false
    ∧ shouldRetry ⟨false, "ssh: unable to authenticate"⟩ = false
    ∧ shouldRetry ⟨false, "malformed request payload"⟩ = false
    ∧ shouldRetry ⟨false, "read tcp 10.0.0.1:22: connection reset by peer"⟩ = true
    ∧ shouldRetry ⟨true, "some deadline exceeded"⟩ = true := by
  refine ⟨?_, by decide, by decide, by decide, by decide, by decide⟩
  simp [shouldRetry, List.any_eq_true, Bool.or_eq_true]

/-- Claim C2 is a code bug: the retry delay bound is computed in
nanoseconds, not seconds.  For the first retry the code draws the sleep
from [0, 2) nanoseconds while the claim (and the spec scenario)
prescribe [0, 2 s); the two bounds differ by a factor of one billion. -/
theorem backoff_delay_nanoseconds_bug :
    backoffDelay 1 = 2
    ∧ specBackoffDelay 1 = 2000000000
    ∧ backoffDelay 1 ≠ specBackoffDelay 1 := by
  decide

/-! ## Direct-tcpip forwarding control phase (server.go, handleDirectTCPIP) -/

/-- Extra data of a direct-tcpip channel open (server.go, type
directTCPIPChannelData). -/
structure directTCPIPChannelData where
  DestAddr : String
  DestPort : Nat
  OriginAddr : String
  OriginPort : Nat
deriving DecidableEq

/-- The JSON init frame sent on the proxy WebSocket (server.go, type
proxyInitMessage). -/
structure proxyInitMessage where
  host : String
  port : Nat
deriving DecidableEq

/-- The JSON response frame read from the proxy WebSocket (server.go,
type proxyResponseMessage). -/
structure proxyResponseMessage where
  status : String
  target : String
deriving DecidableEq

/-- Observable steps of handleDirectTCPIP up to the start of the data
phase. -/
inductive DirectTCPIPEvent where
  | rejectChannel
  | sendInit (m : proxyInitMessage)
  | readResp
  | startDataPhase
  | closeChannel
deriving DecidableEq

/-- The init frame handleDirectTCPIP builds (server.go lines 450-457):
host is DestAddr with the empty string normalized to localhost, port is
DestPort. -/
def proxyInitFor (cd : directTCPIPChannelData) : proxyInitMessage :=
  { host := if cd.DestAddr = "" then "localhost" else cd.DestAddr,
    port := cd.DestPort }

/-- Embeds the control phase of handleDirectTCPIP (server.go) as the
trace of its observable steps.  The Booleans stand for the success of
parsing the extra data, accepting the channel, dialing the WebSocket,
writing the init frame and reading the response frame; each failure
point returns early (the deferred channel close runs once the channel
was accepted).  The data phase starts only when the response status is
connected. -/
def handleDirectTCPIP (cd : directTCPIPChannelData)
    (parseOk acceptOk dialOk writeOk readOk : Bool)
    (resp : proxyResponseMessage) : List DirectTCPIPEvent :=
  if parseOk = false then [.rejectChannel]
  else if acceptOk = false then []
  else if dialOk = false then [.closeChannel]
  else if writeOk = false then [.sendInit (proxyInitFor cd), .closeChannel]
  else if readOk = false then [.sendInit (proxyInitFor cd), .readResp, .closeChannel]
  else if resp.status = "connected" then
    [.sendInit (proxyInitFor cd), .readResp, .startDataPhase, .closeChannel]
  else [.sendInit (proxyInitFor cd), .readResp, .closeChannel]

/-- The init frames occurring in a trace, in order. -/
def sentInits : List DirectTCPIPEvent → List proxyInitMessage
  | [] => []
  | .sendInit m :: t => m :: sentInits t
  | _ :: t => sentInits t

/-- Recognizes the start of the data phase in a trace. -/
def isStartDataPhase : DirectTCPIPEvent → Bool
  | .startDataPhase => true
  | _ => false

/-- Claim C7: after the WebSocket connects, exactly one init frame is
sent, whose host is DestAddr (or localhost when DestAddr is empty) and
whose port is DestPort; one response frame is then read, and the data
phase starts iff its status equals connected, the channel being closed
either way. -/
theorem direct_tcpip_control_phase (cd : directTCPIPChannelData)
    (resp : proxyResponseMessage) :
    sentInits (handleDirectTCPIP cd true true true true true resp) = [proxyInitFor cd]
    ∧ (proxyInitFor cd).host = (if cd.DestAddr = "" then "localhost" else cd.DestAddr)
    ∧ (proxyInitFor cd).port = cd.DestPort
    ∧ ((handleDirectTCPIP cd true true true true true resp).any isStartDataPhase = true
        ↔ resp.status = "connected")
    ∧ (handleDirectTCPIP cd true true true true true resp).getLast? = some .closeChannel := by
  by_cases h : resp.status = "connected" <;>
    simp [handleDirectTCPIP, sentInits, isStartDataPhase, h, proxyInitFor]

/-- Witness for C7, the happy-path scenario: DestAddr empty and
DestPort 5432 send host localhost, port 5432, and a connected response
starts the data phase. -/
theorem direct_tcpip_control_phase_witness :
    sentInits (handleDirectTCPIP ⟨"", 5432, "127.0.0.1", 50000⟩ true true true true true
        ⟨"connected", "10.0.0.9:5432"⟩) = [⟨"localhost", 5432⟩]
    ∧ ((handleDirectTCPIP ⟨"", 5432, "127.0.0.1", 50000⟩ true true true true true
        ⟨"connected", "10.0.0.9:5432"⟩).any isStartDataPhase = true
        ↔ ("connected" : String) = "connected") := by
  have h := direct_tcpip_control_phase ⟨"", 5432, "127.0.0.1", 50000⟩
    ⟨"connected", "10.0.0.9:5432"⟩
  exact ⟨h.1, h.2.2.2.1⟩

/-! ## Host key generation (src/unnamed/part_009, GenerateHostKey and
LoadOrGenerateHostKey) -/

/-- A file write attempted by GenerateHostKey: path, permission mode,
and whether the write succeeded. -/
structure FileWrite where
  path : String
  mode : Nat
  ok : Bool
deriving DecidableEq

/-- Outcome of LoadHostKey at the resolved path: a parseable key exists,
the file does not exist, or some other load error. -/
inductive LoadResult where
  | ok
  | notExist
  | otherErr
deriving DecidableEq

/-- Embeds GenerateHostKey (part_009 lines 57-96).  setupOk abstracts
the steps before any write (key generation, mkdir, marshalling, PEM
encoding), each of which returns an error on failure.  The private key
is written with mode 0600; on failure of that write an error is
returned.  The public key is then written with mode 0644 and the write
error is explicitly ignored (the source reads: underscore assignment,
comment "write the public key, ignoring errors"); the signer is
returned regardless. -/
def GenerateHostKey (path : String) (setupOk privOk pubOk : Bool) :
    Except String Unit × List FileWrite :=
  if setupOk = false then (.error "generate key material", [])
  else if privOk = false then (.error "write private key", [⟨path, 0o600, false⟩])
  else (.ok (), [⟨path, 0o600, true⟩, ⟨path ++ ".pub", 0o644, pubOk⟩])

/-- Embeds LoadOrGenerateHostKey (part_009 lines 98-122) at an already
resolved non-empty path: load the key; when the file does not exist,
generate; any other load error is returned. -/
def LoadOrGenerateHostKey (path : String) (load : LoadResult)
    (setupOk privOk pubOk : Bool) : Except String Unit × List FileWrite :=
  match load with
  | .ok => (.ok (), [])
  | .otherErr => (.error "failed to load SSH host key", [])
  | .notExist =>
      match GenerateHostKey path setupOk privOk pubOk with
      | (.error e, ws) => (.error ("failed to generate SSH host key: " ++ e), ws)
      | (.ok (), ws) => (.ok (), ws)

/-- Counterexample to claim C8 as stated: when the key file is absent
and the .pub write fails, LoadOrGenerateHostKey still returns the
signer (no error), so a failure to write the .pub file is not a hard
startup failure. -/
theorem pub_write_failure_still_returns_signer :
    (LoadOrGenerateHostKey "hostkey" .notExist true true false).1 = .ok ()
    ∧ (LoadOrGenerateHostKey "hostkey" .notExist true true false).2
        = [⟨"hostkey", 0o600, true⟩, ⟨"hostkey.pub", 0o644, false⟩] := by
  constructor
  · rfl
  · simp [LoadOrGenerateHostKey, GenerateHostKey]

/-- Claim C8 as amended: generation writes the private key with mode
0600 and the companion .pub file with mode 0644 before the server
starts; a failure to write the private key (or any earlier generation
step) is a hard startup failure, but a failure of the .pub write is
ignored and the signer is still returned. -/
theorem host_key_write_policy (path : String) (pubOk : Bool) :
    (LoadOrGenerateHostKey path .notExist true true pubOk).1 = .ok ()
    ∧ (LoadOrGenerateHostKey path .notExist true true pubOk).2
        = [⟨path, 0o600, true⟩, ⟨path ++ ".pub", 0o644, pubOk⟩]
    ∧ (LoadOrGenerateHostKey path .notExist true false pubOk).1
        = .error "failed to generate SSH host key: write private key"
    ∧ (LoadOrGenerateHostKey path .notExist false true pubOk).1
        = .error "failed to generate SSH host key: generate key material" := by
  refine ⟨rfl, ?_, rfl, rfl⟩
  simp [LoadOrGenerateHostKey, GenerateHostKey]

/-! ## Pending-auth map lifecycle (server.go, publicKeyCallback, getSprite
and handleConn) -/

/-- Embeds the effect of one handleConn call on the pending-auth map
(server.go).  The map is modelled by its list of keys; the key is the
string user at remoteaddr built by publicKeyCallback and getSprite.
During ssh.NewServerConn, a successful public-key callback stores the
key (callbackStored).  Only when the handshake succeeds does handleConn
call getSprite, whose LoadAndDelete removes the key; when
ssh.NewServerConn returns an error after the callback stored the entry,
handleConn returns at once and nothing removes the key. -/
def pendingAfterHandleConn (pending : List String) (key : String)
    (callbackStored handshakeOk : Bool) : List String :=
  let p1 := if callbackStored then key :: pending else pending
  if handshakeOk then p1.filter (fun k => !(k == key)) else p1

/-- Counterexample to claim C9 as stated: when the public-key callback
stores the entry but the SSH handshake then fails, handleConn returns
with the entry still in the map, and no timeout or teardown eviction
exists anywhere in the server — the key survives. -/
theorem pending_auth_leak_on_failed_handshake :
    pendingAfterHandleConn [] "alice@203.0.113.7:52311" true false
      = ["alice@203.0.113.7:52311"]
    ∧ "alice@203.0.113.7:52311"
        ∈ pendingAfterHandleConn [] "alice@203.0.113.7:52311" true false := by
  constructor
  · rfl
  · simp [pendingAfterHandleConn]

/-- Claim C9 as amended: when the handshake succeeds the entry is
consumed at connection dispatch by LoadAndDelete, so it is gone from
the map whatever its prior state; but when the handshake fails after
the callback stored the entry, the entry remains — there is no timeout
or teardown eviction. -/
theorem pending_auth_consumed_on_dispatch (pending : List String) (key : String)
    (stored : Bool) :
    key ∉ pendingAfterHandleConn pending key stored true
    ∧ key ∈ pendingAfterHandleConn pending key true false := by
  constructor
  · simp [pendingAfterHandleConn, List.mem_filter]
  · simp [pendingAfterHandleConn]

/-- Witness for C9 as amended, at a concrete map and key. -/
theorem pending_auth_consumed_on_dispatch_witness :
    "bob@198.51.100.2:40404"
      ∉ pendingAfterHandleConn ["bob@198.51.100.2:40404"] "bob@198.51.100.2:40404" true true
    ∧ "bob@198.51.100.2:40404"
      ∈ pendingAfterHandleConn ["bob@198.51.100.2:40404"] "bob@198.51.100.2:40404" true false :=
  pending_auth_consumed_on_dispatch ["bob@198.51.100.2:40404"] "bob@198.51.100.2:40404" true

end SpriteBootstrap
